import Mathlib

/-!
Shallow embedding of the 2fast2mcp agent logic: the remediation gate,
the PR risk classifier, the incident root-cause lookup and the cost
tracker, translated from `src/app.py`, `src/agents/ops_agent/server.py`,
`src/agents/github_watcher/server.py` and
`src/agents/cost_sentinel/server.py`.
-/

namespace TwoFast

/-- Lower-casing of a string, as Python `str.lower()` on ASCII text
(character-list form so that concrete instances reduce in the kernel). -/
def lowerStr (s : String) : String := String.mk (s.toList.map Char.toLower)

/-- Tests whether the first character list starts the second. -/
def prefAt : List Char → List Char → Bool
  | [], _ => true
  | _ :: _, [] => false
  | c :: cs, d :: ds => c == d && prefAt cs ds

/-- Tests whether `needle` occurs contiguously inside `haystack`,
as the Python `needle in haystack` test on strings. -/
def subIn (needle : List Char) : List Char → Bool
  | [] => needle.isEmpty
  | c :: rest => prefAt needle (c :: rest) || subIn needle rest

/-- Python `needle in haystack` on strings. -/
def hasSub (haystack needle : String) : Bool :=
  subIn needle.toList haystack.toList

/-- The three-way outcome of the remediation gate: the `status` field of
the returned object (`blocked` / `success` / `manual`). -/
inductive Verdict
  | blocked
  | autoExecuted
  | manualRequired
  deriving DecidableEq, Repr

/-- From `src/app.py`, `ops_execute_action` (lines 143-176): the verdict
branch structure, keeping only the `status` field of each returned dict
(`"blocked"`, `"success"`, `"manual"`); the message strings are
presentation only. -/
def ops_execute_action (action : String) : Verdict :=
  if hasSub (lowerStr action) "delete" &&
      (hasSub (lowerStr action) "prod" || hasSub (lowerStr action) "database") then
    .blocked
  else if hasSub (lowerStr action) "drop" || hasSub (lowerStr action) "truncate" then
    .blocked
  else if hasSub (lowerStr action) "restart" then
    .autoExecuted
  else if hasSub (lowerStr action) "increase" then
    .autoExecuted
  else
    .manualRequired

/-- From `src/agents/ops_agent/server.py`, `execute_remediation`
(lines 143-185): the branch structure of the gate, keeping the verdict
class of each returned message (allow branches first, then the deny
branches, then the manual default, exactly in source order). -/
def execute_remediation (action : String) : Verdict :=
  if hasSub (lowerStr action) "restart" && hasSub (lowerStr action) "service" then
    .autoExecuted
  else if hasSub (lowerStr action) "increase" &&
      (hasSub (lowerStr action) "pool" || hasSub (lowerStr action) "limit") then
    .autoExecuted
  else if hasSub (lowerStr action) "enable" || hasSub (lowerStr action) "set up" then
    .autoExecuted
  else if hasSub (lowerStr action) "clear" && hasSub (lowerStr action) "cache" then
    .autoExecuted
  else if hasSub (lowerStr action) "check" || hasSub (lowerStr action) "verify" then
    .autoExecuted
  else if hasSub (lowerStr action) "delete" &&
      (hasSub (lowerStr action) "prod" || hasSub (lowerStr action) "database") then
    .blocked
  else if hasSub (lowerStr action) "drop" then
    .blocked
  else if hasSub (lowerStr action) "truncate" then
    .blocked
  else
    .manualRequired

/-- The deny predicate of spec section 4.3, rules 1-2: the action
contains "delete" together with "prod" or "database", or contains
"drop" or "truncate" (case-insensitive). -/
def denyMatch (action : String) : Bool :=
  (hasSub (lowerStr action) "delete" &&
    (hasSub (lowerStr action) "prod" || hasSub (lowerStr action) "database")) ||
  (hasSub (lowerStr action) "drop" || hasSub (lowerStr action) "truncate")

/-- The allow predicate of `execute_remediation`: the disjunction of the
five allow-branch conditions of the source. -/
def allowMatchServer (action : String) : Bool :=
  (hasSub (lowerStr action) "restart" && hasSub (lowerStr action) "service") ||
  (hasSub (lowerStr action) "increase" &&
    (hasSub (lowerStr action) "pool" || hasSub (lowerStr action) "limit")) ||
  (hasSub (lowerStr action) "enable" || hasSub (lowerStr action) "set up") ||
  (hasSub (lowerStr action) "clear" && hasSub (lowerStr action) "cache") ||
  (hasSub (lowerStr action) "check" || hasSub (lowerStr action) "verify")

/-- Modelled from the spec, section 4.3: the eight ordered rules of the
claimed gate contract, deny rules first, evaluated top-to-bottom with
first match winning (rule 3 taken as containing "restart", the service
word optional, as the example "Restart API service" requires). Used only
to compare the claimed contract with the gates of the source. -/
def specGate (action : String) : Verdict :=
  if hasSub (lowerStr action) "delete" &&
      (hasSub (lowerStr action) "prod" || hasSub (lowerStr action) "database") then
    .blocked
  else if hasSub (lowerStr action) "drop" || hasSub (lowerStr action) "truncate" then
    .blocked
  else if hasSub (lowerStr action) "restart" then
    .autoExecuted
  else if hasSub (lowerStr action) "increase" &&
      (hasSub (lowerStr action) "pool" || hasSub (lowerStr action) "limit") then
    .autoExecuted
  else if hasSub (lowerStr action) "enable" || hasSub (lowerStr action) "set up" then
    .autoExecuted
  else if hasSub (lowerStr action) "clear" && hasSub (lowerStr action) "cache" then
    .autoExecuted
  else if hasSub (lowerStr action) "check" || hasSub (lowerStr action) "verify" then
    .autoExecuted
  else
    .manualRequired

/-- Risk tiers of the keyword classifier (the emoji prefix of the first
returned component encodes the tier). -/
inductive RiskLevel
  | HIGH
  | MEDIUM
  | LOW
  deriving DecidableEq, Repr

/-- The keyword table of `analyze_risk` in
`src/agents/github_watcher/server.py` (lines 35-44), in source
(dict-insertion) iteration order. -/
def risky_patterns : List (String × String) :=
  [("config", "Configuration files"),
   ("env", "Environment variables"),
   ("secret", "Secrets/credentials"),
   ("auth", "Authentication logic"),
   ("database", "Database schema"),
   ("migration", "Database migrations"),
   (".yaml", "Config files"),
   (".yml", "Config files")]

/-- The keyword table of `analyze_pr_risk` in `src/app.py`
(lines 38-45): the same table without the `.yaml` / `.yml` rows. -/
def risky_patterns_app : List (String × String) :=
  [("config", "Configuration files"),
   ("env", "Environment variables"),
   ("secret", "Secrets/credentials"),
   ("auth", "Authentication logic"),
   ("database", "Database schema"),
   ("migration", "Database migrations")]

/-- The `detected_risks` list of the classifiers: for each file in input
order, the descriptions of the table rows whose pattern occurs in the
lower-cased filename, in table order within one file. -/
def detected_risks (patterns : List (String × String)) (files : List String) :
    List String :=
  files.flatMap fun f =>
    (patterns.filter fun p => hasSub (lowerStr f) p.1).map Prod.snd

/-- `len(set(detected_risks))`: the number of distinct matched category
labels. -/
def risk_count (patterns : List (String × String)) (files : List String) : ℕ :=
  ((detected_risks patterns files).dedup).length

/-- The shared body of the two classifiers (textual near-duplicates in
the source, differing only in their keyword table): the risk tier
together with the collection of labels joined into the description
string. Python joins `set(...)`, whose iteration order is unspecified,
so the label collection is embedded as a deduplicated list and all
theorems about it are stated at the level of membership, never of
order. In the LOW branch the description names no label. -/
def classify (patterns : List (String × String)) (files : List String) :
    RiskLevel × List String :=
  if risk_count patterns files > 3 then
    (.HIGH, ((detected_risks patterns files).take 3).dedup)
  else if risk_count patterns files > 0 then
    (.MEDIUM, (detected_risks patterns files).dedup)
  else
    (.LOW, [])

/-- From `src/agents/github_watcher/server.py`, `analyze_risk`
(lines 28-60): the classifier over the eight-row table. -/
def analyze_risk (files : List String) : RiskLevel × List String :=
  classify risky_patterns files

/-- From `src/app.py`, `analyze_pr_risk` (lines 37-61): the identical
branch structure over the six-row table. -/
def analyze_pr_risk (files : List String) : RiskLevel × List String :=
  classify risky_patterns_app files

/-- An incident record (`incidents.json` entry), with the fields the
embedded functions read. -/
structure Incident where
  title : String
  severity : String
  status : String
  symptoms : String
  deriving DecidableEq, Repr

/-- From `src/agents/ops_agent/server.py`, `determine_root_cause`
(lines 29-42), verbatim branch structure and narrative strings. -/
def determine_root_cause (incident : Incident) : String :=
  if hasSub (lowerStr incident.symptoms) "timeout" then
    "🔍 Database connection pool exhaustion - connections not being released properly"
  else if hasSub (lowerStr incident.symptoms) "corruption" ||
      hasSub (lowerStr incident.symptoms) "checksum" then
    "🔍 Disk I/O errors or hardware failure causing data integrity issues"
  else if hasSub (lowerStr incident.symptoms) "memory" then
    "🔍 Memory leak in worker code - objects not garbage collected"
  else if hasSub (lowerStr incident.symptoms) "cache" then
    "🔍 Cache invalidation issue or CDN configuration problem"
  else
    "🔍 Unknown - requires manual investigation"

/-- The alert entry appended by `suggest_actions` for HIGH and CRITICAL
severities. -/
def alertAction : String := "Set up real-time alerts for this service"

/-- From `src/agents/ops_agent/server.py`, `suggest_actions`
(lines 45-83): the base action list chosen by the symptom branches, then
the severity-conditional alert entry. -/
def suggest_actions (incident : Incident) : List String :=
  (if hasSub (lowerStr incident.symptoms) "timeout" then
    ["Increase database connection pool size to 200",
     "Restart database connection service",
     "Check for long-running queries in slow query log"]
  else if hasSub (lowerStr incident.symptoms) "corruption" then
    ["Run database integrity check (CRITICAL - READ ONLY)",
     "Restore from last known good backup",
     "Alert database team for manual intervention"]
  else if hasSub (lowerStr incident.symptoms) "memory" then
    ["Restart affected worker service",
     "Enable memory profiling for next 24h",
     "Review recent code changes in worker"]
  else if hasSub (lowerStr incident.symptoms) "cache" then
    ["Clear CDN cache",
     "Verify cache configuration",
     "Check origin server response headers"]
  else
    ["Escalate to on-call engineer"]) ++
  (if incident.severity == "HIGH" || incident.severity == "CRITICAL" then
    [alertAction]
  else
    [])

/-- Outcome of a record lookup: the success payload, or the not-found
message that the source returns as a plain value (the `error` field at
the JSON boundary), never as an exception. -/
inductive LookupResult (α : Type)
  | ok (value : α)
  | notFound (msg : String)
  deriving DecidableEq, Repr

/-- Whether a lookup outcome is the not-found value. -/
def isNotFound {α : Type} : LookupResult α → Bool
  | .notFound _ => true
  | .ok _ => false

/-- A pull-request record (`mock_data.json` entry), with the fields the
embedded lookups read. -/
structure PullRequest where
  number : Int
  title : String
  author : String
  files_changed : List String
  deriving DecidableEq, Repr

/-- From `src/app.py`, `github_summarize_pr` (lines 63-83): looks the PR
number up in the data, returns the error object when no record matches,
otherwise the summary; the payload keeps the record and the computed
risk pair (the remaining copied fields are presentation only). The data
store is passed as the list of pull requests. -/
def github_summarize_pr (prs : List PullRequest) (pr_number : Int) :
    LookupResult (PullRequest × RiskLevel × List String) :=
  match prs.find? fun p => p.number == pr_number with
  | none => .notFound ("PR #" ++ toString pr_number ++ " not found in connected repository")
  | some pr => .ok (pr, analyze_pr_risk pr.files_changed)

/-- From `src/agents/github_watcher/server.py`, `summarize_pr`
(lines 63-101): same lookup; the success branch renders a report string
from the record and its `analyze_risk` result (string templating out of
scope), the failure branch returns the not-found message as a value. -/
def summarize_pr (prs : List PullRequest) (pr_number : Int) :
    LookupResult (PullRequest × RiskLevel × List String) :=
  match prs.find? fun p => p.number == pr_number with
  | none => .notFound ("❌ PR #" ++ toString pr_number ++ " not found in repository")
  | some pr => .ok (pr, analyze_risk pr.files_changed)

/-- The analysis payload of `ops_analyze_incident`: the computed root
cause and action list (the fields copied verbatim from the record are
presentation only). -/
structure IncidentAnalysis where
  root_cause : String
  recommended_actions : List String
  deriving DecidableEq, Repr

/-- The default narrative of the final `else` branch of
`ops_analyze_incident` in `src/app.py`: the CDN / cache-bypass story. -/
def appCdnNarrative : String :=
  "CDN origin misconfiguration causing cache bypass — all requests hitting origin directly"

/-- The root-cause / action branch chain inlined in `ops_analyze_incident`
of `src/app.py` (lines 101-129): timeout, corruption, memory, and the CDN
narrative as the final `else` — there is no separate cache test and no
unknown branch. -/
def app_incident_analysis (inc : Incident) : IncidentAnalysis :=
  if hasSub (lowerStr inc.symptoms) "timeout" then
    ⟨"Database connection pool exhaustion — connections not being released properly under high concurrency",
      ["Increase database connection pool size to 200",
       "Restart database connection service",
       "Check for long-running queries in slow query log"]⟩
  else if hasSub (lowerStr inc.symptoms) "corruption" then
    ⟨"Disk I/O errors or hardware failure causing data integrity issues on primary replica",
      ["Run database integrity check (CRITICAL — READ ONLY)",
       "Restore from last known good backup",
       "Alert database team for manual intervention"]⟩
  else if hasSub (lowerStr inc.symptoms) "memory" then
    ⟨"Memory leak in worker process — objects not being garbage collected after batch processing",
      ["Restart affected worker service",
       "Enable memory profiling for next 24h",
       "Review recent code changes in worker"]⟩
  else
    ⟨appCdnNarrative,
      ["Verify CDN cache headers on origin responses",
       "Purge and rebuild CDN cache rules",
       "Monitor cache hit ratio for next 2h"]⟩

/-- From `src/app.py`, `ops_analyze_incident` (lines 94-141): dictionary
lookup of the incident id, the not-found object as a value, otherwise
the analysis of the found record. The incident store is passed as an
association list. -/
def ops_analyze_incident (incidents : List (String × Incident))
    (incident_id : String) : LookupResult IncidentAnalysis :=
  match incidents.find? fun e => e.1 == incident_id with
  | none => .notFound ("Incident " ++ incident_id ++ " not found in monitoring system")
  | some e => .ok (app_incident_analysis e.2)

/-- The model pricing table of `CostTracker.__init__` in
`src/agents/cost_sentinel/server.py` (lines 29-38): dollars per 1K
tokens, as exact rationals. -/
def model_pricing : List (String × ℚ) :=
  [("gpt-4", 0.03),
   ("gpt-4-turbo", 0.01),
   ("gpt-3.5-turbo", 0.0015),
   ("gpt-4o", 0.0025),
   ("gpt-4o-mini", 0.00015),
   ("claude-3-opus", 0.015),
   ("claude-3-sonnet", 0.003),
   ("claude-3-haiku", 0.00025)]

/-- Python `dict.get(key, default)` over an association list. -/
def dictGet {α : Type} (l : List (String × α)) (key : String) (d : α) : α :=
  match l.find? fun e => e.1 == key with
  | some e => e.2
  | none => d

/-- The cost `add_usage` charges for `tokens` tokens of `model`:
`tokens * (model_pricing.get(model, 0.01) / 1000)`. -/
def usage_cost (model : String) (tokens : ℕ) : ℚ :=
  tokens * (dictGet model_pricing model 0.01 / 1000)

/-- The mutable state of `CostTracker` (lines 20-64 of
`src/agents/cost_sentinel/server.py`): the per-model ledger as an
insertion-ordered association list from model name to accumulated
(tokens, cost), plus the running totals. -/
structure CostState where
  usage_by_model : List (String × ℕ × ℚ)
  total_tokens : ℕ
  total_cost : ℚ
  deriving DecidableEq, Repr

/-- Dictionary update of the per-model ledger: add `t` tokens and cost
`c` to the entry of `m`, inserting a fresh entry at the end when the
model is absent (Python inserts `{"tokens": 0, "cost": 0.0}` first and
then accumulates, which lands on the same entry). -/
def updateUsage : List (String × ℕ × ℚ) → String → ℕ → ℚ → List (String × ℕ × ℚ)
  | [], m, t, c => [(m, t, c)]
  | e :: rest, m, t, c =>
    if e.1 == m then (m, e.2.1 + t, e.2.2 + c) :: rest
    else e :: updateUsage rest m t c

/-- From `src/agents/cost_sentinel/server.py`, `CostTracker.add_usage`
(lines 52-64), as a state transformer. -/
def add_usage (s : CostState) (model : String) (tokens : ℕ) : CostState :=
  { usage_by_model := updateUsage s.usage_by_model model tokens (usage_cost model tokens)
    total_tokens := s.total_tokens + tokens
    total_cost := s.total_cost + usage_cost model tokens }

/-- The tracker state before `_init_demo_data`. -/
def emptyTracker : CostState :=
  { usage_by_model := [], total_tokens := 0, total_cost := 0 }

/-- The tracker state after `CostTracker()` construction: the three
`_init_demo_data` preload calls (lines 46-50). -/
def tracker_init : CostState :=
  add_usage (add_usage (add_usage emptyTracker "gpt-4" 15000) "gpt-3.5-turbo" 5000)
    "gpt-4o-mini" 8000

/-- The hard-coded tracker state of `CostTracker.__init__` in
`src/app.py` (lines 182-191). -/
def app_tracker_init : CostState :=
  { usage_by_model :=
      [("gpt-4", 15000, 0.45),
       ("gpt-3.5-turbo", 5000, 0.0075),
       ("gpt-4o-mini", 8000, 0.0012)]
    total_tokens := 28000
    total_cost := 0.4587 }

/-- The ledger invariant: each running total equals the sum of the
corresponding per-model entries. -/
def ledgerOk (s : CostState) : Prop :=
  s.total_tokens = (s.usage_by_model.map fun e => e.2.1).sum ∧
  s.total_cost = (s.usage_by_model.map fun e => e.2.2).sum

instance (s : CostState) : Decidable (ledgerOk s) := by
  unfold ledgerOk; infer_instance

/-- The result record of `CostTracker.calculate_savings` in
`src/agents/cost_sentinel/server.py` (lines 79-94). -/
structure Savings where
  from_cost : ℚ
  to_cost : ℚ
  savings : ℚ
  savings_percentage : ℚ
  deriving DecidableEq, Repr

/-- From `src/agents/cost_sentinel/server.py`,
`CostTracker.calculate_savings` (lines 79-94): note the distinct
fallback prices, `0.01` for the source model and `0.001` for the target
model. -/
def calculate_savings (from_model to_model : String) (tokens : ℕ) : Savings :=
  let from_price := dictGet model_pricing from_model 0.01 / 1000
  let to_price := dictGet model_pricing to_model 0.001 / 1000
  let from_cost : ℚ := tokens * from_price
  let to_cost : ℚ := tokens * to_price
  { from_cost := from_cost
    to_cost := to_cost
    savings := from_cost - to_cost
    savings_percentage :=
      if from_cost > 0 then (from_cost - to_cost) / from_cost * 100 else 0 }

/-- The complexity-to-model table of `recommend_model_switch` in
`src/agents/cost_sentinel/server.py` (lines 199-215); the reasons and
use-case lists are presentation only. -/
def sentinel_recommendations : List (String × String) :=
  [("simple", "gpt-4o-mini"),
   ("medium", "gpt-3.5-turbo"),
   ("complex", "gpt-4")]

/-- From `src/agents/cost_sentinel/server.py`, `recommend_model_switch`
(lines 185-243): lower-cases the complexity, falls back to the medium
row, and prices a 10,000-token sample through `calculate_savings`. -/
def recommend_model_switch (query_complexity current_model : String) :
    String × Savings :=
  (dictGet sentinel_recommendations (lowerStr query_complexity) "gpt-3.5-turbo",
   calculate_savings current_model
     (dictGet sentinel_recommendations (lowerStr query_complexity) "gpt-3.5-turbo")
     10000)

/-- The complexity table of `CostTracker.recommend_model` in
`src/app.py` (lines 208-224): recommended model and its price per 1K
tokens. -/
def app_recommendations : List (String × String × ℚ) :=
  [("simple", "gpt-4o-mini", 0.00015),
   ("medium", "gpt-3.5-turbo", 0.0015),
   ("complex", "gpt-4", 0.03)]

/-- The result record of `CostTracker.recommend_model` in `src/app.py`. -/
structure Recommendation where
  recommended_model : String
  current_cost : ℚ
  recommended_cost : ℚ
  savings : ℚ
  savings_percentage : ℚ
  deriving DecidableEq, Repr

/-- From `src/app.py`, `CostTracker.recommend_model` (lines 207-239):
the baseline is always 10,000 tokens at the complex rate 0.03, the
recommendation is the table row of the (not lower-cased) complexity with
the medium row as fallback. -/
def recommend_model (complexity : String) : Recommendation :=
  let r := dictGet app_recommendations complexity ("gpt-3.5-turbo", 0.0015)
  let current_cost : ℚ := 10000 * 0.03 / 1000
  let recommended_cost : ℚ := 10000 * r.2 / 1000
  { recommended_model := r.1
    current_cost := current_cost
    recommended_cost := recommended_cost
    savings := current_cost - recommended_cost
    savings_percentage :=
      if current_cost > 0 then (current_cost - recommended_cost) / current_cost * 100
      else 0 }

/-- C1 counterexample: the action "Restart the service and delete the
production database" matches the deny rules (it contains "delete" and
"prod"), yet `execute_remediation` auto-executes it, because the source
evaluates its allow branches (here "restart" with "service") before its
deny branches. So the claim that every deny-matching action is blocked
by `execute_remediation` is false. -/
theorem C1_counterexample :
    denyMatch "Restart the service and delete the production database" = true ∧
    execute_remediation "Restart the service and delete the production database" =
      Verdict.autoExecuted := by
  constructor
  · decide
  · decide

/-- C1 (amended): deny rules are evaluated before allow rules only in
`ops_execute_action` (src/app.py), where every deny-matching action is
blocked; in `execute_remediation` (ops_agent/server.py) the allow
branches run first, so a deny-matching action is blocked only when no
allow branch matches. -/
theorem C1_deny_precedence (action : String) :
    (denyMatch action = true → ops_execute_action action = Verdict.blocked) ∧
    (denyMatch action = true → allowMatchServer action = false →
      execute_remediation action = Verdict.blocked) := by
  unfold ops_execute_action execute_remediation denyMatch allowMatchServer
  generalize (hasSub (lowerStr action) "delete" &&
    (hasSub (lowerStr action) "prod" || hasSub (lowerStr action) "database")) = g1
  generalize hasSub (lowerStr action) "drop" = b4
  generalize hasSub (lowerStr action) "truncate" = b5
  generalize (hasSub (lowerStr action) "restart" && hasSub (lowerStr action) "service") = c1
  generalize (hasSub (lowerStr action) "increase" &&
    (hasSub (lowerStr action) "pool" || hasSub (lowerStr action) "limit")) = c2
  generalize (hasSub (lowerStr action) "enable" || hasSub (lowerStr action) "set up") = c3
  generalize (hasSub (lowerStr action) "clear" && hasSub (lowerStr action) "cache") = c4
  generalize (hasSub (lowerStr action) "check" || hasSub (lowerStr action) "verify") = c5
  generalize hasSub (lowerStr action) "restart" = r
  generalize hasSub (lowerStr action) "increase" = i
  revert g1 b4 b5 c1 c2 c3 c4 c5 r i
  decide

/-- C1 witness: the deny-matching action "Drop table users" matches no
allow branch, and both gates block it. -/
theorem C1_witness :
    ops_execute_action "Drop table users" = Verdict.blocked ∧
    execute_remediation "Drop table users" = Verdict.blocked :=
  ⟨(C1_deny_precedence "Drop table users").1 (by decide),
   (C1_deny_precedence "Drop table users").2 (by decide) (by decide)⟩

/-- C2 counterexample: neither gate follows the eight ordered rules of
spec section 4.3 evaluated top-to-bottom. "check and truncate the table"
falls under rule 2 (blocked) of the spec contract, but
`execute_remediation` auto-executes it (its "check" branch runs before
its "truncate" branch); "verify backups" falls under rule 7
(auto-executed), but `ops_execute_action` requires manual action (it has
no check/verify branch at all). -/
theorem C2_counterexample :
    specGate "check and truncate the table" = Verdict.blocked ∧
    execute_remediation "check and truncate the table" = Verdict.autoExecuted ∧
    specGate "verify backups" = Verdict.autoExecuted ∧
    ops_execute_action "verify backups" = Verdict.manualRequired := by
  refine ⟨by decide, by decide, by decide, by decide⟩

/-- C2 (amended): both gates are total and classify every action string
into exactly one of the three verdicts, but by their own, differing rule
chains: `execute_remediation` auto-executes exactly the actions matching
one of its five allow conditions, blocks exactly the remaining actions
matching a deny rule, and requires manual action otherwise;
`ops_execute_action` blocks exactly the deny-matching actions and
auto-executes exactly the remaining ones containing "restart" or
"increase". On the spec's two examples the gates do agree: "Delete
production database" is blocked and "Restart API service" is
auto-executed by both. -/
theorem C2_gate_classification :
    (∀ action : String,
      (execute_remediation action = Verdict.autoExecuted ↔
        allowMatchServer action = true) ∧
      (execute_remediation action = Verdict.blocked ↔
        (allowMatchServer action = false ∧ denyMatch action = true)) ∧
      (execute_remediation action = Verdict.manualRequired ↔
        (allowMatchServer action = false ∧ denyMatch action = false)) ∧
      (ops_execute_action action = Verdict.blocked ↔ denyMatch action = true) ∧
      (ops_execute_action action = Verdict.autoExecuted ↔
        (denyMatch action = false ∧
          (hasSub (lowerStr action) "restart" || hasSub (lowerStr action) "increase") = true))) ∧
    ops_execute_action "Delete production database" = Verdict.blocked ∧
    execute_remediation "Delete production database" = Verdict.blocked ∧
    ops_execute_action "Restart API service" = Verdict.autoExecuted ∧
    execute_remediation "Restart API service" = Verdict.autoExecuted := by
  refine ⟨fun action => ?_, by decide, by decide, by decide, by decide⟩
  unfold ops_execute_action execute_remediation denyMatch allowMatchServer
  generalize (hasSub (lowerStr action) "delete" &&
    (hasSub (lowerStr action) "prod" || hasSub (lowerStr action) "database")) = g1
  generalize hasSub (lowerStr action) "drop" = b4
  generalize hasSub (lowerStr action) "truncate" = b5
  generalize (hasSub (lowerStr action) "restart" && hasSub (lowerStr action) "service") = c1
  generalize (hasSub (lowerStr action) "increase" &&
    (hasSub (lowerStr action) "pool" || hasSub (lowerStr action) "limit")) = c2
  generalize (hasSub (lowerStr action) "enable" || hasSub (lowerStr action) "set up") = c3
  generalize (hasSub (lowerStr action) "clear" && hasSub (lowerStr action) "cache") = c4
  generalize (hasSub (lowerStr action) "check" || hasSub (lowerStr action) "verify") = c5
  generalize hasSub (lowerStr action) "restart" = r
  generalize hasSub (lowerStr action) "increase" = i
  revert g1 b4 b5 c1 c2 c3 c4 c5 r i
  decide

/-- Tier characterization of the shared classifier body: the tier is a
function of the distinct-match count alone, with the thresholds of the
source. -/
theorem classify_tier_spec (patterns : List (String × String)) (files : List String) :
    ((classify patterns files).1 = RiskLevel.HIGH ↔ 3 < risk_count patterns files) ∧
    ((classify patterns files).1 = RiskLevel.MEDIUM ↔
      (0 < risk_count patterns files ∧ risk_count patterns files ≤ 3)) ∧
    ((classify patterns files).1 = RiskLevel.LOW ↔ risk_count patterns files = 0) := by
  unfold classify
  split
  · simp_all
    omega
  · split <;> simp_all <;> omega

/-- C3 counterexample: on the spec's example file list,
`analyze_pr_risk` of `src/app.py` returns MEDIUM, not HIGH: its keyword
table lacks the `.yaml` / `.yml` rows, so only three distinct categories
match (config, auth, migration), and three is not strictly more than
three. -/
theorem C3_counterexample :
    (analyze_pr_risk ["config/prod.yaml", "auth/login.py", "db/migration_01.sql"]).1 =
      RiskLevel.MEDIUM ∧
    (analyze_pr_risk ["config/prod.yaml", "auth/login.py", "db/migration_01.sql"]).1 ≠
      RiskLevel.HIGH := by
  constructor
  · decide
  · decide

/-- C3 (amended): both classifiers determine the tier solely from the
number of distinct matched category labels, by count > 3 HIGH,
0 < count <= 3 MEDIUM, count = 0 LOW, and empty input yields LOW; but on
the example list `analyze_risk` (whose table also matches `.yaml` as
"Config files", for four distinct labels) returns HIGH while
`analyze_pr_risk` (three distinct labels) returns MEDIUM. -/
theorem C3_risk_tiers :
    (∀ files : List String,
      ((analyze_risk files).1 = RiskLevel.HIGH ↔ 3 < risk_count risky_patterns files) ∧
      ((analyze_risk files).1 = RiskLevel.MEDIUM ↔
        (0 < risk_count risky_patterns files ∧ risk_count risky_patterns files ≤ 3)) ∧
      ((analyze_risk files).1 = RiskLevel.LOW ↔ risk_count risky_patterns files = 0) ∧
      ((analyze_pr_risk files).1 = RiskLevel.HIGH ↔
        3 < risk_count risky_patterns_app files) ∧
      ((analyze_pr_risk files).1 = RiskLevel.MEDIUM ↔
        (0 < risk_count risky_patterns_app files ∧
          risk_count risky_patterns_app files ≤ 3)) ∧
      ((analyze_pr_risk files).1 = RiskLevel.LOW ↔
        risk_count risky_patterns_app files = 0)) ∧
    analyze_risk [] = (RiskLevel.LOW, []) ∧
    analyze_pr_risk [] = (RiskLevel.LOW, []) ∧
    (analyze_risk ["config/prod.yaml", "auth/login.py", "db/migration_01.sql"]).1 =
      RiskLevel.HIGH ∧
    (analyze_pr_risk ["config/prod.yaml", "auth/login.py", "db/migration_01.sql"]).1 =
      RiskLevel.MEDIUM := by
  refine ⟨fun files => ?_, by decide, by decide, by decide, by decide⟩
  obtain ⟨h1, h2, h3⟩ := classify_tier_spec risky_patterns files
  obtain ⟨h4, h5, h6⟩ := classify_tier_spec risky_patterns_app files
  exact ⟨h1, h2, h3, h4, h5, h6⟩

/-- C9 counterexample: on a HIGH-risk file list whose files match in the
reverse of table order, the displayed label set keeps the first three
labels in detection (input-major) order: "Configuration files", the
label of the first table row, is matched but dropped, while "Database
migrations", from the sixth table row but the first input file, is kept.
Table-order truncation would keep the former and drop the latter, so
the claimed order is refuted. -/
theorem C9_counterexample :
    (analyze_risk
        ["db/migration_01.sql", "auth/login.py", "secrets.txt", "config/app.py", "env.sh"]).1 =
      RiskLevel.HIGH ∧
    "Configuration files" ∈
      detected_risks risky_patterns
        ["db/migration_01.sql", "auth/login.py", "secrets.txt", "config/app.py", "env.sh"] ∧
    "Configuration files" ∉
      (analyze_risk
        ["db/migration_01.sql", "auth/login.py", "secrets.txt", "config/app.py", "env.sh"]).2 ∧
    "Database migrations" ∈
      (analyze_risk
        ["db/migration_01.sql", "auth/login.py", "secrets.txt", "config/app.py", "env.sh"]).2 := by
  refine ⟨by decide, by decide, by decide, by decide⟩

/-- C9 (amended): in the HIGH case the displayed labels are exactly the
distinct labels among the first three entries of the detection-order
list (input-major, table-minor within one file) — truncation happens
before deduplication and follows input order, and the display sequence
of the joined Python set is unspecified, so only membership is
asserted. -/
theorem C9_truncation (files : List String) (l : String)
    (h : 3 < risk_count risky_patterns files) :
    l ∈ (analyze_risk files).2 ↔
      l ∈ (detected_risks risky_patterns files).take 3 := by
  unfold analyze_risk classify
  rw [if_pos h]
  simp [List.mem_dedup]

/-- C9 witness: on the counterexample file list the truncation keeps
"Database migrations". -/
theorem C9_witness :
    "Database migrations" ∈
      (analyze_risk
        ["db/migration_01.sql", "auth/login.py", "secrets.txt", "config/app.py", "env.sh"]).2 :=
  (C9_truncation
    ["db/migration_01.sql", "auth/login.py", "secrets.txt", "config/app.py", "env.sh"]
    "Database migrations" (by decide)).mpr (by decide)

/-- C6 counterexample: a symptom text containing "checksum" but none of
the four claimed substrings still receives the corruption narrative
from `determine_root_cause`, not the default one; and two incidents with
identical symptoms but different severities receive different action
lists from `suggest_actions`, so the action list is not fixed by the
symptom text alone. -/
theorem C6_counterexample :
    hasSub (lowerStr "Checksum mismatch detected on replica") "timeout" = false ∧
    hasSub (lowerStr "Checksum mismatch detected on replica") "corruption" = false ∧
    hasSub (lowerStr "Checksum mismatch detected on replica") "memory" = false ∧
    hasSub (lowerStr "Checksum mismatch detected on replica") "cache" = false ∧
    determine_root_cause
        ⟨"Data integrity alert", "LOW", "open", "Checksum mismatch detected on replica"⟩ =
      "🔍 Disk I/O errors or hardware failure causing data integrity issues" ∧
    determine_root_cause
        ⟨"Data integrity alert", "LOW", "open", "Checksum mismatch detected on replica"⟩ ≠
      "🔍 Unknown - requires manual investigation" ∧
    suggest_actions ⟨"API Gateway Timeout", "HIGH", "open", "Request timeout spike"⟩ ≠
      suggest_actions ⟨"API Gateway Timeout", "LOW", "open", "Request timeout spike"⟩ := by
  refine ⟨by decide, by decide, by decide, by decide, by decide, by decide, by decide⟩

/-- C6 (amended): `determine_root_cause` is pure, deterministic and
total, and returns the default unknown narrative exactly when none of
the five substrings "timeout", "corruption", "checksum", "memory",
"cache" occurs in the lower-cased symptoms ("checksum" is an undocumented
alias of the corruption branch); `suggest_actions` additionally depends
on severity, appending the real-time-alert entry for HIGH and CRITICAL
incidents; and the `ops_analyze_incident` variant in `src/app.py` has no
unknown branch at all — when none of "timeout", "corruption", "memory"
occurs, its root cause is the CDN cache-bypass narrative. -/
theorem C6_root_cause :
    (∀ inc : Incident,
      determine_root_cause inc = "🔍 Unknown - requires manual investigation" ↔
        (hasSub (lowerStr inc.symptoms) "timeout" = false ∧
         hasSub (lowerStr inc.symptoms) "corruption" = false ∧
         hasSub (lowerStr inc.symptoms) "checksum" = false ∧
         hasSub (lowerStr inc.symptoms) "memory" = false ∧
         hasSub (lowerStr inc.symptoms) "cache" = false)) ∧
    (∀ inc : Incident, inc.severity = "HIGH" ∨ inc.severity = "CRITICAL" →
      alertAction ∈ suggest_actions inc) ∧
    (∀ (incidents : List (String × Incident)) (incident_id : String)
        (e : String × Incident),
      incidents.find? (fun x => x.1 == incident_id) = some e →
      hasSub (lowerStr e.2.symptoms) "timeout" = false →
      hasSub (lowerStr e.2.symptoms) "corruption" = false →
      hasSub (lowerStr e.2.symptoms) "memory" = false →
      ∃ acts : List String,
        ops_analyze_incident incidents incident_id = .ok ⟨appCdnNarrative, acts⟩) := by
  refine ⟨fun inc => ?_, fun inc h => ?_, fun incidents incident_id e hf h1 h2 h3 => ?_⟩
  · unfold determine_root_cause
    generalize hasSub (lowerStr inc.symptoms) "timeout" = b1
    generalize hasSub (lowerStr inc.symptoms) "corruption" = b2
    generalize hasSub (lowerStr inc.symptoms) "checksum" = b3
    generalize hasSub (lowerStr inc.symptoms) "memory" = b4
    generalize hasSub (lowerStr inc.symptoms) "cache" = b5
    revert b1 b2 b3 b4 b5
    decide
  · unfold suggest_actions
    have hb : (inc.severity == "HIGH" || inc.severity == "CRITICAL") = true := by
      rcases h with h | h <;> simp [h]
    rw [hb]
    simp
  · have hres : ops_analyze_incident incidents incident_id =
        .ok ⟨appCdnNarrative,
          ["Verify CDN cache headers on origin responses",
           "Purge and rebuild CDN cache rules",
           "Monitor cache hit ratio for next 2h"]⟩ := by
      unfold ops_analyze_incident
      rw [hf]
      unfold app_incident_analysis
      simp [h1, h2, h3]
    exact ⟨_, hres⟩

/-- C6 witness: a HIGH-severity incident receives the alert entry, and a
one-incident store whose symptoms match none of the three app branches
is analyzed to the CDN narrative. -/
theorem C6_witness :
    alertAction ∈
      suggest_actions ⟨"API Gateway Timeout", "HIGH", "open", "Request timeout spike"⟩ ∧
    ∃ acts : List String,
      ops_analyze_incident
          [("INC-004", ⟨"Slow pages", "LOW", "open", "High latency reported"⟩)]
          "INC-004" =
        .ok ⟨appCdnNarrative, acts⟩ :=
  ⟨C6_root_cause.2.1 ⟨"API Gateway Timeout", "HIGH", "open", "Request timeout spike"⟩
    (Or.inl rfl),
   C6_root_cause.2.2 [("INC-004", ⟨"Slow pages", "LOW", "open", "High latency reported"⟩)]
    "INC-004" ("INC-004", ⟨"Slow pages", "LOW", "open", "High latency reported"⟩)
    (by decide) (by decide) (by decide) (by decide)⟩

/-- C7: each lookup operation returns the not-found value exactly when
the supplied PR number or incident id matches no record; every other
input is answered with a success value, and no operation has any other
failure outcome — the functions are total by construction. -/
theorem C7_not_found :
    (∀ (prs : List PullRequest) (pr_number : Int),
      isNotFound (github_summarize_pr prs pr_number) = true ↔
        ∀ p ∈ prs, p.number ≠ pr_number) ∧
    (∀ (prs : List PullRequest) (pr_number : Int),
      isNotFound (summarize_pr prs pr_number) = true ↔
        ∀ p ∈ prs, p.number ≠ pr_number) ∧
    (∀ (incidents : List (String × Incident)) (incident_id : String),
      isNotFound (ops_analyze_incident incidents incident_id) = true ↔
        ∀ e ∈ incidents, e.1 ≠ incident_id) := by
  refine ⟨fun prs n => ?_, fun prs n => ?_, fun incidents i => ?_⟩
  · unfold github_summarize_pr
    cases hf : prs.find? fun p => p.number == n with
    | none =>
      constructor
      · intro _ p hp
        have h2 := List.find?_eq_none.mp hf p hp
        simpa using h2
      · intro _
        rfl
    | some pr =>
      constructor
      · intro hnf
        simp [isNotFound] at hnf
      · intro hall
        have hbeq := List.find?_some hf
        have hmem := List.mem_of_find?_eq_some hf
        simp only [beq_iff_eq] at hbeq
        exact absurd hbeq (hall pr hmem)
  · unfold summarize_pr
    cases hf : prs.find? fun p => p.number == n with
    | none =>
      constructor
      · intro _ p hp
        have h2 := List.find?_eq_none.mp hf p hp
        simpa using h2
      · intro _
        rfl
    | some pr =>
      constructor
      · intro hnf
        simp [isNotFound] at hnf
      · intro hall
        have hbeq := List.find?_some hf
        have hmem := List.mem_of_find?_eq_some hf
        simp only [beq_iff_eq] at hbeq
        exact absurd hbeq (hall pr hmem)
  · unfold ops_analyze_incident
    cases hf : incidents.find? fun e => e.1 == i with
    | none =>
      constructor
      · intro _ e he
        have h2 := List.find?_eq_none.mp hf e he
        simpa using h2
      · intro _
        rfl
    | some e =>
      constructor
      · intro hnf
        simp [isNotFound] at hnf
      · intro hall
        have hbeq := List.find?_some hf
        have hmem := List.mem_of_find?_eq_some hf
        simp only [beq_iff_eq] at hbeq
        exact absurd hbeq (hall e hmem)

/-- C7 witness: an empty store answers every PR number with the
not-found value. -/
theorem C7_witness : isNotFound (github_summarize_pr [] 99) = true :=
  (C7_not_found.1 [] 99).mpr (by simp)

/-- The default 0.01 price falls outside the table only for models the
table does not list; the table prices themselves are all nonnegative,
so the price used by `add_usage` always is. -/
theorem usage_price_nonneg (model : String) :
    0 ≤ dictGet model_pricing model 0.01 := by
  unfold dictGet
  cases hf : model_pricing.find? fun e => e.1 == model with
  | none => norm_num
  | some e =>
    have hmem := List.mem_of_find?_eq_some hf
    fin_cases hmem <;> norm_num

/-- C4: for every model listed in the pricing table with price `p`, the
cost that `add_usage` charges for `t` tokens is `t * p / 1000` exactly,
the two costs priced by `calculate_savings` follow the same formula, and
the cost is monotone non-decreasing in the token count. -/
theorem C4_estimate_cost (model : String) (p : ℚ)
    (hmem : (model, p) ∈ model_pricing) (t t2 : ℕ) (hle : t ≤ t2) :
    usage_cost model t = t * p / 1000 ∧
    (∀ other : String, (calculate_savings model other t).from_cost = t * p / 1000) ∧
    (∀ other : String, (calculate_savings other model t).to_cost = t * p / 1000) ∧
    usage_cost model t ≤ usage_cost model t2 := by
  have hd : dictGet model_pricing model 0.01 = p := by
    fin_cases hmem <;> simp [dictGet, model_pricing, List.find?]
  have hd2 : dictGet model_pricing model 0.001 = p := by
    fin_cases hmem <;> simp [dictGet, model_pricing, List.find?]
  refine ⟨?_, fun other => ?_, fun other => ?_, ?_⟩
  · unfold usage_cost
    rw [hd]
    ring
  · unfold calculate_savings
    simp only [hd]
    ring
  · unfold calculate_savings
    simp only [hd2]
    ring
  · unfold usage_cost
    have hp : 0 ≤ dictGet model_pricing model 0.01 / 1000 :=
      div_nonneg (usage_price_nonneg model) (by norm_num)
    exact mul_le_mul_of_nonneg_right (by exact_mod_cast hle) hp

/-- C4 witness: the gpt-4 row at 3 and 5 tokens. -/
theorem C4_witness :
    usage_cost "gpt-4" 3 = 3 * (0.03 : ℚ) / 1000 ∧
    (∀ other : String, (calculate_savings "gpt-4" other 3).from_cost =
      3 * (0.03 : ℚ) / 1000) ∧
    (∀ other : String, (calculate_savings other "gpt-4" 3).to_cost =
      3 * (0.03 : ℚ) / 1000) ∧
    usage_cost "gpt-4" 3 ≤ usage_cost "gpt-4" 5 :=
  C4_estimate_cost "gpt-4" 0.03 (by simp [model_pricing]) 3 5 (by decide)

/-- C5: the savings percentage of the simple-tier recommendation is
exactly `(0.03 - 0.00015) / 0.03 * 100` in both implementations (with
the baseline of 10,000 tokens at the complex rate), and the percentage
of the underlying savings formula is 0 whenever the baseline cost is 0
(as at zero tokens). -/
theorem C5_savings_percentage :
    (recommend_model "simple").savings_percentage =
      ((0.03 : ℚ) - 0.00015) / 0.03 * 100 ∧
    (recommend_model "simple").current_cost = 10000 * (0.03 : ℚ) / 1000 ∧
    (recommend_model "simple").recommended_cost = 10000 * (0.00015 : ℚ) / 1000 ∧
    ((recommend_model_switch "simple" "gpt-4").2).savings_percentage =
      ((0.03 : ℚ) - 0.00015) / 0.03 * 100 ∧
    (∀ from_model to_model : String,
      (calculate_savings from_model to_model 0).savings_percentage = 0) := by
  have hfrom : dictGet model_pricing "gpt-4" 0.01 = 0.03 := rfl
  have hto : dictGet model_pricing "gpt-4o-mini" 0.001 = 0.00015 := rfl
  refine ⟨?_, ?_, ?_, ?_, fun f t => ?_⟩
  · norm_num [recommend_model, app_recommendations, dictGet, List.find?]
  · norm_num [recommend_model, app_recommendations, dictGet, List.find?]
  · norm_num [recommend_model, app_recommendations, dictGet, List.find?]
  · have hswitch : (recommend_model_switch "simple" "gpt-4").2 =
        calculate_savings "gpt-4" "gpt-4o-mini" 10000 := rfl
    rw [hswitch]
    simp only [calculate_savings, hfrom, hto]
    norm_num
  · simp [calculate_savings]

/-- C8: for a model name absent from the pricing table, `add_usage`
prices it at the default 0.01 per 1K tokens while `calculate_savings`
prices it as a switch target at the default 0.001 per 1K tokens — two
distinct fallback defaults. -/
theorem C8_default_prices (model : String)
    (habs : ∀ e ∈ model_pricing, e.1 ≠ model) :
    (∀ (s : CostState) (tokens : ℕ),
      (add_usage s model tokens).total_cost =
        s.total_cost + tokens * ((0.01 : ℚ) / 1000)) ∧
    (∀ (from_model : String) (tokens : ℕ),
      (calculate_savings from_model model tokens).to_cost =
        tokens * ((0.001 : ℚ) / 1000)) ∧
    (0.01 : ℚ) ≠ 0.001 := by
  have hget : ∀ d : ℚ, dictGet model_pricing model d = d := by
    intro d
    unfold dictGet
    rw [List.find?_eq_none.mpr fun e he => by simpa using habs e he]
  refine ⟨fun s tokens => ?_, fun f tokens => ?_, by norm_num⟩
  · unfold add_usage usage_cost
    rw [hget]
  · unfold calculate_savings
    rw [hget]

/-- C8 witness: the two defaults at a concrete unlisted model name. -/
theorem C8_witness :
    (add_usage emptyTracker "o3-mini" 5000).total_cost =
      0 + 5000 * ((0.01 : ℚ) / 1000) ∧
    (calculate_savings "gpt-4" "o3-mini" 5000).to_cost =
      5000 * ((0.001 : ℚ) / 1000) :=
  ⟨(C8_default_prices "o3-mini" (by decide)).1 emptyTracker 5000,
   (C8_default_prices "o3-mini" (by decide)).2.1 "gpt-4" 5000⟩

/-- Updating one ledger entry adds the new tokens to the token column
sum. -/
theorem updateUsage_tokens_sum (m : String) (t : ℕ) (c : ℚ)
    (l : List (String × ℕ × ℚ)) :
    ((updateUsage l m t c).map fun e => e.2.1).sum =
      ((l.map fun e => e.2.1).sum) + t := by
  induction l with
  | nil => simp [updateUsage]
  | cons e rest ih =>
    unfold updateUsage
    by_cases h : (e.1 == m) = true
    · rw [if_pos h]
      simp
      omega
    · rw [if_neg h]
      simp [ih]
      omega

/-- Updating one ledger entry adds the new cost to the cost column sum. -/
theorem updateUsage_cost_sum (m : String) (t : ℕ) (c : ℚ)
    (l : List (String × ℕ × ℚ)) :
    ((updateUsage l m t c).map fun e => e.2.2).sum =
      ((l.map fun e => e.2.2).sum) + c := by
  induction l with
  | nil => simp [updateUsage]
  | cons e rest ih =>
    unfold updateUsage
    by_cases h : (e.1 == m) = true
    · rw [if_pos h]
      simp
      ring
    · rw [if_neg h]
      simp [ih]
      ring

/-- One `add_usage` call keeps the running totals consistent with the
per-model ledger. -/
theorem add_usage_preserves_ledger (s : CostState) (model : String) (tokens : ℕ)
    (h : ledgerOk s) : ledgerOk (add_usage s model tokens) := by
  obtain ⟨h1, h2⟩ := h
  constructor
  · simp only [add_usage, updateUsage_tokens_sum, h1]
  · simp only [add_usage, updateUsage_cost_sum, h2]

/-- C10: the ledger invariant — each running total equals the sum over
the per-model entries, in exact arithmetic — holds of the demo-preloaded
tracker of the cost sentinel, of the hard-coded tracker of `src/app.py`,
and is preserved by every `add_usage` call. -/
theorem C10_ledger_invariant :
    ledgerOk tracker_init ∧
    ledgerOk app_tracker_init ∧
    ∀ (s : CostState) (model : String) (tokens : ℕ),
      ledgerOk s → ledgerOk (add_usage s model tokens) := by
  have hempty : ledgerOk emptyTracker := by simp [ledgerOk, emptyTracker]
  refine ⟨?_, ?_, fun s model tokens h => add_usage_preserves_ledger s model tokens h⟩
  · exact add_usage_preserves_ledger _ _ _
      (add_usage_preserves_ledger _ _ _ (add_usage_preserves_ledger _ _ _ hempty))
  · constructor
    · norm_num [ledgerOk, app_tracker_init]
    · norm_num [ledgerOk, app_tracker_init]

/-- C10 witness: the invariant transported through a concrete
`add_usage` call on the hard-coded tracker state. -/
theorem C10_witness : ledgerOk (add_usage app_tracker_init "gpt-4" 100) :=
  C10_ledger_invariant.2.2 app_tracker_init "gpt-4" 100
    (by constructor <;> norm_num [ledgerOk, app_tracker_init])

end TwoFast
